import Mathlib

/-
  Verification development for socktest.c, an interactive harness that
  exercises socket APIs under four readiness models (blocking, nonblocking,
  select, signal).  The definitions below are shallow embeddings of the state
  and control structure of the C source: the socket registry (gSockfd and
  gCurrent), the blocking-detection oracle (verifyBlocking), the per-model
  pre/post phases, the command retry loops, and the command handlers whose
  state effects the claims concern.  External collaborators (socket calls,
  select, signal delivery) are modelled by explicit environment inputs:
  a command handler receives the results the system calls would produce.
-/

set_option autoImplicit false

namespace Socktest

/-- Maximum sockets open simultaneously (MAXSOCKETS in socktest.c). -/
def MAXSOCKETS : Nat := 10

/-- Sentinel value stored in gSockfd for an unused slot (UNUSED_FD). -/
def UNUSED_FD : Int := -1

/-- Delay in microseconds that the harness interprets as a block (BLOCK_THRESHOLD). -/
def BLOCK_THRESHOLD : Int := 1000000

/-- Readiness condition attached to each socket operation (readyCondition in socktest.c). -/
inductive ReadyCondition
  | readReady
  | writeReady
  | exceptReady
deriving DecidableEq

/-- The active readiness model (the model enumeration in socktest.c). -/
inductive Model
  | blockingModel
  | nonblockingModel
  | selectModel
  | signalModel
deriving DecidableEq

/-- Error codes distinguished by nonblockingPostAPISetup; every other errno value
is collapsed into otherErr with its numeric code. -/
inductive CErrno
  | ewouldblock
  | einprogress
  | ealready
  | otherErr (n : Nat)
deriving DecidableEq

/-- Registry state of the harness: the gSockfd array (as a list, length 10 in the
program) and the gCurrent index. -/
structure RegState where
  sockfd : List Int
  current : Nat
deriving DecidableEq

/-- Scan gSockfd for the first unused slot (findFreeSocketSlot in socktest.c);
none models the negative return used when all slots are occupied, at which point
the handler prints the capacity message and gives up. -/
def findFreeSocketSlot : List Int → Option Nat
  | [] => none
  | fd :: rest =>
      if fd = UNUSED_FD then some 0
      else (findFreeSocketSlot rest).map (· + 1)

/-- State effect of the socket command (doSocket): find the first free slot, make it
current, and store the result of the socket() call in it — even when that result is
negative, since the handler assigns gSockfd[gCurrent] before testing for failure.
When no slot is free the handler returns with the state unchanged. -/
def doSocket (s : RegState) (sockResult : Int) : RegState :=
  match findFreeSocketSlot s.sockfd with
  | none => s
  | some i => { sockfd := s.sockfd.set i sockResult, current := i }

/-- State effect of the close command (doClose): when close() fails the handler
returns early, leaving the slot untouched; only on success is the slot reset to
UNUSED_FD. -/
def doClose (s : RegState) (closeResult : Int) : RegState :=
  if closeResult < 0 then s
  else { s with sockfd := s.sockfd.set s.current UNUSED_FD }

/-- Possible outcomes of the use command for a parsed index. -/
inductive UseOutcome
  | outOfBounds
  | rejected
  | selected (i : Nat)
deriving DecidableEq

/-- Outcome of the use command (doUse) on a parsed index n: the handler reads
gSockfd[n] with no range check, so an index outside the array reads past its
bounds (undefined behavior, modelled as outOfBounds); an in-range unused slot is
rejected with an error message and the current selection left unchanged; an
in-range, in-use slot becomes the current selection. -/
def doUse (sockfd : List Int) (n : Int) : UseOutcome :=
  if n < 0 then UseOutcome.outOfBounds
  else
    match sockfd.get? n.toNat with
    | none => UseOutcome.outOfBounds
    | some fd =>
        if fd = UNUSED_FD then UseOutcome.rejected
        else UseOutcome.selected n.toNat

/-- The model command (doModel): no argument resets to the blocking model; each of
the four names selects its model; any other argument is reported as unrecognized
and the model selection is left unchanged. -/
def doModel (curr : Model) (arg : Option String) : Model :=
  match arg with
  | none => Model.blockingModel
  | some a =>
      if a = "blocking" then Model.blockingModel
      else if a = "nonblocking" then Model.nonblockingModel
      else if a = "signal" then Model.signalModel
      else if a = "select" then Model.selectModel
      else curr

/-- Classification made by verifyBlocking: the call is deemed to have blocked when
the elapsed time delta (in microseconds) exceeds BLOCK_THRESHOLD. -/
def classifyBlocked (delta : Int) : Bool := decide (BLOCK_THRESHOLD < delta)

/-- Expectation recorded by blockingPreAPISetup: shouldBlock is set exactly when the
needed condition differs from WRITE_READY. -/
def shouldBlockOf (c : ReadyCondition) : Bool := decide (c ≠ ReadyCondition.writeReady)

/-- Whether verifyBlocking prints its mismatch diagnostic: it does so exactly when
the classification differs from the expectation passed in. -/
def verifyBlockingMismatch (delta : Int) (expected : Bool) : Bool :=
  classifyBlocked delta != expected

/-- Expectation handed by blockingPostAPISetup to verifyBlocking: the recorded
shouldBlock flag conjoined with success of the call (apiResult nonnegative). -/
def blockingExpected (c : ReadyCondition) (apiResult : Int) : Bool :=
  shouldBlockOf c && decide (0 ≤ apiResult)

/-- Completion decision of blockingPostAPISetup: it always returns TRUE (Done). -/
def blockingDone (_ : Int) (_ : CErrno) : Bool := true

/-- Completion decision of nonblockingPostAPISetup (taken after verifyBlocking and
after clearing O_NONBLOCK): done when the result is nonnegative or errno is none
of EWOULDBLOCK, EINPROGRESS, EALREADY; when not done the handler sleeps one
second and lets the caller retry. -/
def nonblockingDone (r : Int) (e : CErrno) : Bool :=
  decide (0 ≤ r) ||
    !(e == CErrno.ewouldblock || e == CErrno.einprogress || e == CErrno.ealready)

/-- One iteration of the environment seen by a command retry loop: whether the
user-interrupt flag is set at the check placed between preAPISetup and the API
call, and the result and errno the API call would produce at this iteration. -/
structure LoopIter where
  intrFlag : Bool
  result : Int
  err : CErrno
deriving DecidableEq

/-- The command retry loop shared by doConnect, doAccept, doRecvmsg, doSendmsg,
doRead and doWrite: each iteration runs preAPISetup, returns at once if the
interrupt flag is set (without invoking the API), otherwise invokes the API and
lets the post phase decide completion.  The value is the number of API
invocations paired with the final result (none in place of a result when the
loop returned because of an interrupt); none overall when the iteration
environment is exhausted with the loop still running. -/
def runRetryLoop (finish : Int → CErrno → Bool) : List LoopIter → Option (Nat × Option Int)
  | [] => none
  | it :: rest =>
      if it.intrFlag then some (0, none)
      else if finish it.result it.err then some (1, some it.result)
      else
        match runRetryLoop finish rest with
        | none => none
        | some (n, r) => some (n + 1, r)

/-- The fd sets and timeout handed to one select() call by selectPreAPISetup: the
current socket is placed in exactly the set matching the needed condition, and
the timeout is re-initialized to one second on every iteration. -/
structure SelectCall where
  readFds : List Int
  writeFds : List Int
  exceptFds : List Int
  timeoutSec : Int
  timeoutUsec : Int
deriving DecidableEq

/-- Construction of the select() arguments performed inside each iteration of the
selectPreAPISetup loop. -/
def buildSelectCall (c : ReadyCondition) (fd : Int) : SelectCall :=
  match c with
  | ReadyCondition.readReady => ⟨[fd], [], [], 1, 0⟩
  | ReadyCondition.writeReady => ⟨[], [fd], [], 1, 0⟩
  | ReadyCondition.exceptReady => ⟨[], [], [fd], 1, 0⟩

/-- One observed iteration of the selectPreAPISetup loop: the select() return value,
whether the watched bit came back set, and whether the user-interrupt flag is set
when the loop condition is re-evaluated after the body. -/
structure SelIter where
  result : Int
  bitSet : Bool
  intrFlag : Bool
deriving DecidableEq

/-- Done flag computed by one body of the selectPreAPISetup loop: it becomes true
exactly when select() returned 1 (when the expected bit is missing the handler
logs a harness error but still terminates the loop; any return other than 0 or 1
logs an error and the loop continues). -/
def selIterDone (it : SelIter) : Bool := it.result == 1

/-- The selectPreAPISetup wait loop: iterations run until the done flag or the
interrupt flag stops the loop; the value is the exit iteration paired with the
interrupt flag at exit, or none when the environment list is exhausted with the
loop still running. -/
def selectWaitLoop : List SelIter → Option (SelIter × Bool)
  | [] => none
  | it :: rest =>
      if selIterDone it || it.intrFlag then some (it, it.intrFlag)
      else selectWaitLoop rest

/-- Whether the calling command invokes the socket API after selectPreAPISetup
returns: the retry loop checks gInterrupted immediately after the prepare phase
and returns without calling the API when it is set. -/
def selectOpInvoked (iters : List SelIter) : Bool :=
  match selectWaitLoop iters with
  | none => false
  | some (_, intr) => !intr

/-- Externally visible actions of signalPreAPISetup, listed in program order. -/
inductive SigEffect
  | installHandler
  | claimOwner
  | clearFlag
  | enableAsync
  | sleepTick
  | startTiming
deriving DecidableEq

/-- Environment for signalPreAPISetup: whether signal() and fcntl(F_SETOWN) fail,
and the (sigioReceived, gInterrupted) flag values observed at each check of the
wait loop. -/
structure SigEnv where
  signalFails : Bool
  setownFails : Bool
  schedule : List (Bool × Bool)
deriving DecidableEq

/-- Wait loop of signalPreAPISetup: while neither sigioReceived nor gInterrupted is
set, sleep one second and check again; the value is the list of sleep effects
performed, or none when the schedule is exhausted with the loop still waiting. -/
def sigWaitTrace : List (Bool × Bool) → Option (List SigEffect)
  | [] => none
  | p :: rest =>
      if p.1 || p.2 then some []
      else (sigWaitTrace rest).map (fun t => SigEffect.sleepTick :: t)

/-- Effect trace of signalPreAPISetup: for WRITE_READY the handler only starts
timing and returns at once; otherwise it installs the active SIGIO handler,
claims ownership of the current socket, clears sigioReceived, enables O_ASYNC,
waits until sigioReceived or gInterrupted becomes set, and then starts timing.
A failure of signal() aborts before anything is installed; a failure of
F_SETOWN aborts after the handler installation. -/
def signalPreAPISetup (c : ReadyCondition) (env : SigEnv) : Option (List SigEffect) :=
  match c with
  | ReadyCondition.writeReady => some [SigEffect.startTiming]
  | _ =>
      if env.signalFails then some []
      else if env.setownFails then some [SigEffect.installHandler]
      else
        (sigWaitTrace env.schedule).map fun t =>
          SigEffect.installHandler :: SigEffect.claimOwner :: SigEffect.clearFlag ::
            SigEffect.enableAsync :: (t ++ [SigEffect.startTiming])

/-- Per-command session state relevant to interrupt handling. -/
structure Session where
  interrupted : Bool
  model : Model
deriving DecidableEq

/-- Entry into the command dispatch of the main loop: gInterrupted is reset to
FALSE immediately before the command switch, so every handler starts its work
with a clear interrupt flag. -/
def commandDispatchEntry (s : Session) : Session := { s with interrupted := false }

/-- Characterization of a successful scan: the returned index holds the unused
sentinel and every earlier slot is in use. -/
theorem findFreeSocketSlot_first (l : List Int) (i : Nat)
    (h : findFreeSocketSlot l = some i) :
    l.get? i = some UNUSED_FD ∧ ∀ j, j < i → ∀ fd, l.get? j = some fd → fd ≠ UNUSED_FD := by
  induction l generalizing i with
  | nil => simp [findFreeSocketSlot] at h
  | cons fd rest ih =>
      rw [findFreeSocketSlot] at h
      by_cases hfd : fd = UNUSED_FD
      · rw [if_pos hfd] at h
        cases h
        exact ⟨by simp [hfd], by intro j hj; omega⟩
      · rw [if_neg hfd] at h
        match hrec : findFreeSocketSlot rest with
        | none => rw [hrec] at h; simp at h
        | some i' =>
            rw [hrec] at h
            simp only [Option.map_some', Option.some.injEq] at h
            subst h
            obtain ⟨h1, h2⟩ := ih i' hrec
            refine ⟨by simpa using h1, ?_⟩
            intro j hj fdj hget
            cases j with
            | zero =>
                simp at hget
                subst hget
                exact hfd
            | succ j' => exact h2 j' (by omega) fdj (by simpa using hget)

/-- The scan fails exactly when no slot holds the unused sentinel. -/
theorem findFreeSocketSlot_eq_none_iff (l : List Int) :
    findFreeSocketSlot l = none ↔ ∀ fd ∈ l, fd ≠ UNUSED_FD := by
  induction l with
  | nil => simp [findFreeSocketSlot]
  | cons fd rest ih =>
      rw [findFreeSocketSlot]
      by_cases hfd : fd = UNUSED_FD
      · simp [hfd]
      · simp [hfd, ih]

/-- Setting a slot within bounds puts the written value into the list. -/
theorem mem_set_self (l : List Int) (k : Nat) (a : Int) (h : k < l.length) :
    a ∈ l.set k a := by
  induction l generalizing k with
  | nil => simp at h
  | cons x rest ih =>
      cases k with
      | zero => simp
      | succ k' =>
          simp only [List.set]
          exact List.mem_cons_of_mem _ (ih k' (by simpa using h))

/-- A retry-loop run whose first k iterations are uninterrupted transient failures
and whose iteration k is uninterrupted and complete invokes the API exactly
k + 1 times and ends with that iteration's result. -/
theorem runRetryLoop_completes (finish : Int → CErrno → Bool) (script : List LoopIter)
    (k : Nat) (it : LoopIter)
    (hmem : script.get? k = some it)
    (hintr : (script.take (k + 1)).all (fun i => !i.intrFlag) = true)
    (hnot : (script.take k).all (fun i => !finish i.result i.err) = true)
    (hdone : finish it.result it.err = true) :
    runRetryLoop finish script = some (k + 1, some it.result) := by
  induction script generalizing k with
  | nil => simp at hmem
  | cons it0 rest ih =>
      cases k with
      | zero =>
          simp at hmem
          subst hmem
          simp only [List.take, List.all_cons, Bool.and_eq_true, Bool.not_eq_true'] at hintr
          rw [runRetryLoop]
          simp [hintr.1, hdone]
      | succ k' =>
          simp only [List.get?] at hmem
          simp only [List.take, List.all_cons, Bool.and_eq_true, Bool.not_eq_true'] at hintr hnot
          have hrest := ih k' hmem hintr.2 hnot.2
          rw [runRetryLoop]
          simp [hintr.1, hnot.1, hrest]

/-- A retry-loop run that returns without a result after n invocations was stopped
by the interrupt flag at the check of iteration n, every earlier iteration having
run uninterrupted without completing. -/
theorem runRetryLoop_interrupted (finish : Int → CErrno → Bool) (script : List LoopIter)
    (n : Nat) (h : runRetryLoop finish script = some (n, none)) :
    (∃ it, script.get? n = some it ∧ it.intrFlag = true) ∧
      ∀ j, j < n → ∃ itj, script.get? j = some itj ∧ itj.intrFlag = false ∧
        finish itj.result itj.err = false := by
  induction script generalizing n with
  | nil => simp [runRetryLoop] at h
  | cons it0 rest ih =>
      rw [runRetryLoop] at h
      by_cases h0 : it0.intrFlag
      · rw [if_pos h0] at h
        simp only [Option.some.injEq, Prod.mk.injEq] at h
        obtain ⟨hn, -⟩ := h
        subst hn
        exact ⟨⟨it0, by simp, h0⟩, by intro j hj; omega⟩
      · rw [if_neg h0] at h
        by_cases h1 : finish it0.result it0.err
        · rw [if_pos h1] at h
          simp at h
        · rw [if_neg h1] at h
          match hrec : runRetryLoop finish rest with
          | none => rw [hrec] at h; simp at h
          | some (n', r') =>
              rw [hrec] at h
              simp only [Option.some.injEq, Prod.mk.injEq] at h
              obtain ⟨hn, hr⟩ := h
              subst hr
              subst hn
              obtain ⟨⟨it, hit, hintr⟩, hall⟩ := ih n' hrec
              refine ⟨⟨it, by simpa using hit, hintr⟩, ?_⟩
              intro j hj
              cases j with
              | zero =>
                  exact ⟨it0, by simp, by simpa using h0, by simpa using h1⟩
              | succ j' =>
                  obtain ⟨itj, a, b, c⟩ := hall j' (by omega)
                  exact ⟨itj, by simpa using a, b, c⟩

/-- The select wait loop exits at an iteration of its environment, reporting that
iteration's interrupt flag, and only when that iteration set done or interrupt. -/
theorem selectWaitLoop_exit (iters : List SelIter) (it : SelIter) (intr : Bool)
    (h : selectWaitLoop iters = some (it, intr)) :
    it ∈ iters ∧ intr = it.intrFlag ∧ (selIterDone it || it.intrFlag) = true := by
  induction iters with
  | nil => simp [selectWaitLoop] at h
  | cons it0 rest ih =>
      rw [selectWaitLoop] at h
      by_cases h0 : (selIterDone it0 || it0.intrFlag) = true
      · rw [if_pos h0] at h
        simp only [Option.some.injEq, Prod.mk.injEq] at h
        obtain ⟨h1, h2⟩ := h
        subst h1
        subst h2
        exact ⟨List.mem_cons_self _ _, rfl, h0⟩
      · rw [if_neg h0] at h
        obtain ⟨a, b, c⟩ := ih h
        exact ⟨List.mem_cons_of_mem _ a, b, c⟩

/-- The signal-model wait loop returns only when some check of its schedule saw
sigioReceived or gInterrupted set. -/
theorem sigWaitTrace_flagged (sched : List (Bool × Bool)) (t : List SigEffect)
    (h : sigWaitTrace sched = some t) :
    ∃ p ∈ sched, p.1 = true ∨ p.2 = true := by
  induction sched generalizing t with
  | nil => simp [sigWaitTrace] at h
  | cons p rest ih =>
      rw [sigWaitTrace] at h
      by_cases hp : (p.1 || p.2) = true
      · exact ⟨p, List.mem_cons_self _ _, by simpa [Bool.or_eq_true] using hp⟩
      · rw [if_neg hp] at h
        rw [Option.map_eq_some'] at h
        obtain ⟨t', ht', -⟩ := h
        obtain ⟨q, hq, hql⟩ := ih t' ht'
        exact ⟨q, List.mem_cons_of_mem _ hq, hql⟩

/-- Reading back a slot just written within bounds yields the written value. -/
theorem get?_set_self (l : List Int) (i : Nat) (a : Int) (h : i < l.length) :
    (l.set i a).get? i = some a := by
  induction l generalizing i with
  | nil => simp at h
  | cons x rest ih =>
      cases i with
      | zero => rfl
      | succ i' => simpa using ih i' (by simpa using h)

/-- C1 counterexample: with model = blocking and condition = read-ready, a connect
that returns success (0) instantly (elapsed time 0) is classified as not having
blocked, yet verifyBlocking does report a mismatch, because blockingPostAPISetup
compares the classification against shouldBlock AND apiResult nonnegative, which
is true here — refuting the claim that no mismatch is reported. -/
theorem C1_counterexample :
    classifyBlocked 0 = false ∧
      shouldBlockOf ReadyCondition.readReady = true ∧
      verifyBlockingMismatch 0 (blockingExpected ReadyCondition.readReady 0) = true := by
  decide

/-- C1 (amended): under the blocking strategy, prepare records expected-blocking as
true exactly when the condition is not write-ready; the retry loop always finishes
after a single uninterrupted invocation, since finish always returns Done; and
finish reports no mismatch exactly when the oracle classification equals the
recorded expectation AND-ed with success of the call (result nonnegative) — so the
instant successful read-ready call of the claim's scenario is classified
DidNotBlock and a mismatch is reported. -/
theorem C1_blocking_strategy (c : ReadyCondition) (delta r : Int)
    (it : LoopIter) (rest : List LoopIter) (h : it.intrFlag = false) :
    (shouldBlockOf c = true ↔ c ≠ ReadyCondition.writeReady) ∧
      runRetryLoop blockingDone (it :: rest) = some (1, some it.result) ∧
      (verifyBlockingMismatch delta (blockingExpected c r) = false ↔
        classifyBlocked delta = (shouldBlockOf c && decide (0 ≤ r))) := by
  refine ⟨by simp [shouldBlockOf], ?_, ?_⟩
  · rw [runRetryLoop]
    simp [h, blockingDone]
  · rw [verifyBlockingMismatch, blockingExpected]
    cases hcb : classifyBlocked delta <;>
      cases hex : (shouldBlockOf c && decide (0 ≤ r)) <;> simp

/-- Witness for C1: concrete instantiation at condition read-ready, elapsed time 0,
api result 0, and a one-iteration uninterrupted loop environment. -/
theorem C1_blocking_strategy_witness :
    (shouldBlockOf ReadyCondition.readReady = true ↔
        ReadyCondition.readReady ≠ ReadyCondition.writeReady) ∧
      runRetryLoop blockingDone [⟨false, 7, CErrno.otherErr 0⟩] = some (1, some 7) ∧
      (verifyBlockingMismatch 0 (blockingExpected ReadyCondition.readReady 0) = false ↔
        classifyBlocked 0 = (shouldBlockOf ReadyCondition.readReady && decide ((0:Int) ≤ 0))) :=
  C1_blocking_strategy ReadyCondition.readReady 0 0 ⟨false, 7, CErrno.otherErr 0⟩ [] rfl

/-- C2: the non-blocking finish marks Done exactly when the result is nonnegative or
the errno is none of EWOULDBLOCK, EINPROGRESS, EALREADY; and an uninterrupted run
whose first k results are transient failures and whose iteration k completes
invokes the API exactly k + 1 times — in particular three would-block results
followed by a success give exactly four invocations. -/
theorem C2_nonblocking_retry (script : List LoopIter) (k : Nat) (it : LoopIter)
    (r : Int) (e : CErrno)
    (hmem : script.get? k = some it)
    (hintr : (script.take (k + 1)).all (fun i => !i.intrFlag) = true)
    (hnot : (script.take k).all (fun i => !nonblockingDone i.result i.err) = true)
    (hdone : nonblockingDone it.result it.err = true) :
    runRetryLoop nonblockingDone script = some (k + 1, some it.result) ∧
      (nonblockingDone r e = true ↔
        (0 ≤ r ∨ (e ≠ CErrno.ewouldblock ∧ e ≠ CErrno.einprogress ∧ e ≠ CErrno.ealready))) := by
  refine ⟨runRetryLoop_completes nonblockingDone script k it hmem hintr hnot hdone, ?_⟩
  rw [nonblockingDone]
  cases e <;> simp

/-- Witness for C2: the claim's scenario — a receive that yields would-block three
times and then succeeds is invoked exactly four times. -/
theorem C2_nonblocking_retry_witness :
    runRetryLoop nonblockingDone
        [⟨false, -1, CErrno.ewouldblock⟩, ⟨false, -1, CErrno.ewouldblock⟩,
          ⟨false, -1, CErrno.ewouldblock⟩, ⟨false, 5, CErrno.otherErr 0⟩] =
      some (4, some 5) ∧
      (nonblockingDone (-1) CErrno.ewouldblock = true ↔
        ((0:Int) ≤ -1 ∨ (CErrno.ewouldblock ≠ CErrno.ewouldblock ∧
          CErrno.ewouldblock ≠ CErrno.einprogress ∧
          CErrno.ewouldblock ≠ CErrno.ealready))) :=
  C2_nonblocking_retry
    [⟨false, -1, CErrno.ewouldblock⟩, ⟨false, -1, CErrno.ewouldblock⟩,
      ⟨false, -1, CErrno.ewouldblock⟩, ⟨false, 5, CErrno.otherErr 0⟩]
    3 ⟨false, 5, CErrno.otherErr 0⟩ (-1) CErrno.ewouldblock
    (by decide) (by decide) (by decide) (by decide)

/-- C5 counterexample: with slot 0 holding fd 5 as the current slot, a close command
whose close() call fails (returns -1) leaves the slot still holding fd 5 — the slot
is not set back to unused, refuting the claim that release happens regardless of
the close result. -/
theorem C5_counterexample :
    (doClose ⟨[5, -1, -1, -1, -1, -1, -1, -1, -1, -1], 0⟩ (-1)).sockfd.get? 0 = some 5 ∧
      (5 : Int) ≠ UNUSED_FD := by
  decide

/-- C5 (amended): doClose resets the current slot to unused only when close()
succeeds; when close() fails the handler returns early and the registry state is
entirely unchanged. -/
theorem C5_close_amended (s : RegState) (r : Int) :
    (r < 0 → doClose s r = s) ∧
      (0 ≤ r → (doClose s r).sockfd = s.sockfd.set s.current UNUSED_FD) := by
  constructor
  · intro hr
    rw [doClose, if_pos hr]
  · intro hr
    rw [doClose, if_neg (by omega)]

/-- Witness for C5 (amended): a failing close leaves the one-slot registry intact,
and a successful close clears its slot. -/
theorem C5_close_amended_witness :
    (doClose ⟨[5], 0⟩ (-1) = ⟨[5], 0⟩) ∧
      (doClose ⟨[5], 0⟩ 0).sockfd = [(5:Int)].set 0 UNUSED_FD :=
  ⟨(C5_close_amended ⟨[5], 0⟩ (-1)).1 (by decide),
    (C5_close_amended ⟨[5], 0⟩ 0).2 (by decide)⟩

/-- C6 evaluation at the failing input: with all ten slots in use, the use command
on index 10 (or on index -1) reads gSockfd outside the array — undefined behavior
rather than the range-check rejection the claim describes — while an in-range,
in-use index such as 4 is accepted and becomes the current selection. -/
theorem C6_use_out_of_range :
    doUse (List.replicate 10 3) 10 = UseOutcome.outOfBounds ∧
      doUse (List.replicate 10 3) (-1) = UseOutcome.outOfBounds ∧
      doUse (List.replicate 10 3) 4 = UseOutcome.selected 4 := by
  decide

/-- C10: the model command sets blocking when given no argument, maps each of the
four recognized names to its model, and leaves the model selection unchanged on
any unrecognized argument. -/
theorem C10_model_command (m : Model) (a : String)
    (h1 : a ≠ "blocking") (h2 : a ≠ "nonblocking")
    (h3 : a ≠ "signal") (h4 : a ≠ "select") :
    doModel m none = Model.blockingModel ∧
      doModel m (some "blocking") = Model.blockingModel ∧
      doModel m (some "nonblocking") = Model.nonblockingModel ∧
      doModel m (some "signal") = Model.signalModel ∧
      doModel m (some "select") = Model.selectModel ∧
      doModel m (some a) = m := by
  refine ⟨rfl, rfl, rfl, rfl, rfl, ?_⟩
  rw [doModel]
  simp [h1, h2, h3, h4]

/-- Witness for C10: concrete instantiation with the unrecognized argument bogus
and current model signal. -/
theorem C10_model_command_witness :
    doModel Model.signalModel none = Model.blockingModel ∧
      doModel Model.signalModel (some "blocking") = Model.blockingModel ∧
      doModel Model.signalModel (some "nonblocking") = Model.nonblockingModel ∧
      doModel Model.signalModel (some "signal") = Model.signalModel ∧
      doModel Model.signalModel (some "select") = Model.selectModel ∧
      doModel Model.signalModel (some "bogus") = Model.signalModel :=
  C10_model_command Model.signalModel "bogus"
    (by decide) (by decide) (by decide) (by decide)

/-- C3: under the select model, each loop iteration hands select() exactly one
descriptor — the current socket, placed in the set matching the requested
condition — with a timeout of one second; the socket API is invoked only when the
wait loop exited uninterrupted through a select() return of 1 with the watched
bit set; and an exit with the interrupt flag set never invokes the API. -/
theorem C3_select_wait (c : ReadyCondition) (fd : Int) (iters : List SelIter)
    (hcons : ∀ it ∈ iters, it.result = 1 → it.bitSet = true) :
    ((buildSelectCall c fd).readFds ++ (buildSelectCall c fd).writeFds ++
        (buildSelectCall c fd).exceptFds = [fd] ∧
      (buildSelectCall c fd).readFds = (if c = ReadyCondition.readReady then [fd] else []) ∧
      (buildSelectCall c fd).writeFds = (if c = ReadyCondition.writeReady then [fd] else []) ∧
      (buildSelectCall c fd).exceptFds = (if c = ReadyCondition.exceptReady then [fd] else []) ∧
      (buildSelectCall c fd).timeoutSec = 1 ∧ (buildSelectCall c fd).timeoutUsec = 0) ∧
      (selectOpInvoked iters = true →
        ∃ it, selectWaitLoop iters = some (it, false) ∧ it.result = 1 ∧ it.bitSet = true) ∧
      (∀ it, selectWaitLoop iters = some (it, true) → selectOpInvoked iters = false) := by
  refine ⟨by cases c <;> simp [buildSelectCall], ?_, ?_⟩
  · intro hop
    rw [selectOpInvoked] at hop
    match hl : selectWaitLoop iters with
    | none => rw [hl] at hop; simp at hop
    | some (it, intr) =>
        rw [hl] at hop
        simp only [Bool.not_eq_true'] at hop
        subst hop
        obtain ⟨hmem, hintr, hdone⟩ := selectWaitLoop_exit iters it false hl
        have hflag : it.intrFlag = false := hintr.symm
        rw [hflag, Bool.or_false, selIterDone, beq_iff_eq] at hdone
        exact ⟨it, rfl, hdone, hcons it hmem hdone⟩
  · intro it hl
    rw [selectOpInvoked, hl]
    simp

/-- Witness for C3: read-ready condition on descriptor 4 with an environment that
times out once and then reports the watched bit. -/
theorem C3_select_wait_witness :
    ((buildSelectCall ReadyCondition.readReady 4).readFds ++
        (buildSelectCall ReadyCondition.readReady 4).writeFds ++
        (buildSelectCall ReadyCondition.readReady 4).exceptFds = [4] ∧
      (buildSelectCall ReadyCondition.readReady 4).readFds =
        (if ReadyCondition.readReady = ReadyCondition.readReady then [(4:Int)] else []) ∧
      (buildSelectCall ReadyCondition.readReady 4).writeFds =
        (if ReadyCondition.readReady = ReadyCondition.writeReady then [(4:Int)] else []) ∧
      (buildSelectCall ReadyCondition.readReady 4).exceptFds =
        (if ReadyCondition.readReady = ReadyCondition.exceptReady then [(4:Int)] else []) ∧
      (buildSelectCall ReadyCondition.readReady 4).timeoutSec = 1 ∧
      (buildSelectCall ReadyCondition.readReady 4).timeoutUsec = 0) ∧
      (selectOpInvoked [⟨0, false, false⟩, ⟨1, true, false⟩] = true →
        ∃ it, selectWaitLoop [⟨0, false, false⟩, ⟨1, true, false⟩] = some (it, false) ∧
          it.result = 1 ∧ it.bitSet = true) ∧
      (∀ it, selectWaitLoop [⟨0, false, false⟩, ⟨1, true, false⟩] = some (it, true) →
        selectOpInvoked [⟨0, false, false⟩, ⟨1, true, false⟩] = false) :=
  C3_select_wait ReadyCondition.readReady 4 [⟨0, false, false⟩, ⟨1, true, false⟩]
    (by decide)

/-- C4: under the signal model, a write-ready request produces only the timing
start — the handler is never installed, ownership is never claimed and O_ASYNC is
never enabled; a read-ready or exceptional request (with signal() and F_SETOWN
succeeding) installs the handler, claims ownership, clears sigioReceived, enables
O_ASYNC, and returns only after some check of the wait loop saw sigioReceived or
gInterrupted set. -/
theorem C4_signal_prepare (env : SigEnv) (c : ReadyCondition) (t : List SigEffect)
    (hc : c ≠ ReadyCondition.writeReady)
    (h1 : env.signalFails = false) (h2 : env.setownFails = false)
    (ht : signalPreAPISetup c env = some t) :
    signalPreAPISetup ReadyCondition.writeReady env = some [SigEffect.startTiming] ∧
      t.take 4 = [SigEffect.installHandler, SigEffect.claimOwner,
        SigEffect.clearFlag, SigEffect.enableAsync] ∧
      ∃ p ∈ env.schedule, p.1 = true ∨ p.2 = true := by
  have key : ∃ t', sigWaitTrace env.schedule = some t' ∧
      t = SigEffect.installHandler :: SigEffect.claimOwner :: SigEffect.clearFlag ::
        SigEffect.enableAsync :: (t' ++ [SigEffect.startTiming]) := by
    cases c with
    | writeReady => exact absurd rfl hc
    | readReady =>
        simp only [signalPreAPISetup, h1, h2, Bool.false_eq_true, if_false] at ht
        rw [Option.map_eq_some'] at ht
        obtain ⟨t', ht', heq⟩ := ht
        exact ⟨t', ht', heq.symm⟩
    | exceptReady =>
        simp only [signalPreAPISetup, h1, h2, Bool.false_eq_true, if_false] at ht
        rw [Option.map_eq_some'] at ht
        obtain ⟨t', ht', heq⟩ := ht
        exact ⟨t', ht', heq.symm⟩
  obtain ⟨t', ht', rfl⟩ := key
  exact ⟨rfl, rfl, sigWaitTrace_flagged env.schedule t' ht'⟩

/-- Witness for C4: a read-ready request in an environment where signal() and
F_SETOWN succeed and the second check of the wait loop sees sigioReceived set. -/
theorem C4_signal_prepare_witness :
    signalPreAPISetup ReadyCondition.writeReady ⟨false, false, [(false, false), (true, false)]⟩ =
        some [SigEffect.startTiming] ∧
      ([SigEffect.installHandler, SigEffect.claimOwner, SigEffect.clearFlag,
          SigEffect.enableAsync, SigEffect.sleepTick, SigEffect.startTiming].take 4 =
        [SigEffect.installHandler, SigEffect.claimOwner,
          SigEffect.clearFlag, SigEffect.enableAsync]) ∧
      ∃ p ∈ [(false, false), (true, false)], p.1 = true ∨ p.2 = true :=
  C4_signal_prepare ⟨false, false, [(false, false), (true, false)]⟩
    ReadyCondition.readReady
    [SigEffect.installHandler, SigEffect.claimOwner, SigEffect.clearFlag,
      SigEffect.enableAsync, SigEffect.sleepTick, SigEffect.startTiming]
    (by decide) rfl rfl rfl

/-- C7: the allocation scan returns the first unused slot (every earlier slot being
in use); on a registry with every slot occupied the scan fails and the socket
command leaves the registry and current selection unchanged, creating no handle;
and after any one slot is set back to unused the next scan succeeds. -/
theorem C7_allocate (l : List Int) (i k : Nat) (s : RegState) (r : Int)
    (hfree : findFreeSocketSlot l = some i)
    (hfull : ∀ fd ∈ s.sockfd, fd ≠ UNUSED_FD)
    (hk : k < l.length) :
    (l.get? i = some UNUSED_FD ∧
      ∀ j, j < i → ∀ fd, l.get? j = some fd → fd ≠ UNUSED_FD) ∧
      (findFreeSocketSlot s.sockfd = none ∧ doSocket s r = s) ∧
      findFreeSocketSlot (l.set k UNUSED_FD) ≠ none := by
  have hnone : findFreeSocketSlot s.sockfd = none :=
    (findFreeSocketSlot_eq_none_iff _).mpr hfull
  refine ⟨findFreeSocketSlot_first l i hfree, ⟨hnone, ?_⟩, ?_⟩
  · rw [doSocket, hnone]
  · intro hcontra
    exact (findFreeSocketSlot_eq_none_iff _).mp hcontra UNUSED_FD
      (mem_set_self l k UNUSED_FD hk) rfl

/-- Witness for C7: a registry whose first slot is in use and second slot free
(scan returns index 1), a fully occupied registry for the capacity case, and the
release of slot 0. -/
theorem C7_allocate_witness :
    (([3, -1, -1, -1, -1, -1, -1, -1, -1, -1] : List Int).get? 1 = some UNUSED_FD ∧
      ∀ j, j < 1 → ∀ fd, ([3, -1, -1, -1, -1, -1, -1, -1, -1, -1] : List Int).get? j =
        some fd → fd ≠ UNUSED_FD) ∧
      (findFreeSocketSlot (List.replicate 10 3) = none ∧
        doSocket ⟨List.replicate 10 3, 0⟩ 7 = ⟨List.replicate 10 3, 0⟩) ∧
      findFreeSocketSlot
        (([3, -1, -1, -1, -1, -1, -1, -1, -1, -1] : List Int).set 0 UNUSED_FD) ≠ none :=
  C7_allocate [3, -1, -1, -1, -1, -1, -1, -1, -1, -1] 1 0 ⟨List.replicate 10 3, 0⟩ 7
    (by decide) (by decide) (by decide)

/-- C8: a retry loop that returns without a result after n API invocations was
stopped by the interrupt flag at the post-prepare check of iteration n — the API
is not invoked there — while every earlier iteration ran with the flag clear and
without completing; and the main loop resets the interrupt flag immediately
before dispatching each command. -/
theorem C8_interrupt (finish : Int → CErrno → Bool) (script : List LoopIter)
    (n : Nat) (s : Session) (h : runRetryLoop finish script = some (n, none)) :
    (∃ it, script.get? n = some it ∧ it.intrFlag = true) ∧
      (∀ j, j < n → ∃ itj, script.get? j = some itj ∧ itj.intrFlag = false ∧
        finish itj.result itj.err = false) ∧
      (commandDispatchEntry s).interrupted = false := by
  obtain ⟨a, b⟩ := runRetryLoop_interrupted finish script n h
  exact ⟨a, b, rfl⟩

/-- Witness for C8: a nonblocking run whose first iteration yields would-block and
whose second iteration finds the interrupt flag set at the post-prepare check. -/
theorem C8_interrupt_witness :
    (∃ it, ([⟨false, -1, CErrno.ewouldblock⟩, ⟨true, 0, CErrno.otherErr 0⟩] :
        List LoopIter).get? 1 = some it ∧ it.intrFlag = true) ∧
      (∀ j, j < 1 → ∃ itj, ([⟨false, -1, CErrno.ewouldblock⟩,
          ⟨true, 0, CErrno.otherErr 0⟩] : List LoopIter).get? j = some itj ∧
        itj.intrFlag = false ∧ nonblockingDone itj.result itj.err = false) ∧
      (commandDispatchEntry ⟨true, Model.blockingModel⟩).interrupted = false :=
  C8_interrupt nonblockingDone
    [⟨false, -1, CErrno.ewouldblock⟩, ⟨true, 0, CErrno.otherErr 0⟩]
    1 ⟨true, Model.blockingModel⟩ (by decide)

/-- C9 counterexample: starting from an empty registry, a successful socket command
(fd 3) followed by a socket command whose socket() call fails (returns -1) leaves
slot 0 in use while the current selection points at slot 1, which holds the unused
sentinel — so with a socket existing, the current selection refers to an unused
slot, refuting the invariant for the failing-creation case the claim includes. -/
theorem C9_counterexample :
    (∃ fd ∈ (doSocket (doSocket ⟨List.replicate 10 UNUSED_FD, 0⟩ 3) (-1)).sockfd,
        fd ≠ UNUSED_FD) ∧
      (doSocket (doSocket ⟨List.replicate 10 UNUSED_FD, 0⟩ 3) (-1)).sockfd.get?
          (doSocket (doSocket ⟨List.replicate 10 UNUSED_FD, 0⟩ 3) (-1)).current =
        some UNUSED_FD := by
  decide

/-- C9 (amended): after a socket command whose socket() call succeeds, the current
selection refers to the newly filled slot, which is in use; the unrestricted
invariant fails because a failing socket() stores its negative result — the unused
sentinel — in the slot that the handler has already made current. -/
theorem C9_selection_amended (s : RegState) (r : Int) (i : Nat)
    (hr : 0 ≤ r) (hfind : findFreeSocketSlot s.sockfd = some i) :
    (doSocket s r).current = i ∧
      (doSocket s r).sockfd.get? i = some r ∧ r ≠ UNUSED_FD := by
  have hget := (findFreeSocketSlot_first s.sockfd i hfind).1
  have hlt : i < s.sockfd.length := by
    obtain ⟨hw, -⟩ := List.get?_eq_some.mp hget
    exact hw
  rw [doSocket, hfind]
  refine ⟨rfl, get?_set_self s.sockfd i r hlt, ?_⟩
  intro hcontra
  rw [hcontra] at hr
  norm_num [UNUSED_FD] at hr

/-- Witness for C9 (amended): a successful socket() (fd 3) on an empty registry
selects slot 0 and fills it. -/
theorem C9_selection_amended_witness :
    (doSocket ⟨List.replicate 10 UNUSED_FD, 0⟩ 3).current = 0 ∧
      (doSocket ⟨List.replicate 10 UNUSED_FD, 0⟩ 3).sockfd.get? 0 = some 3 ∧
      (3 : Int) ≠ UNUSED_FD :=
  C9_selection_amended ⟨List.replicate 10 UNUSED_FD, 0⟩ 3 0 (by decide) (by decide)

end Socktest
